import Mathlib

/-!
Verification of the deal-scraper core (models.py, amazon_api.py,
focused_scraper.py, deal_manager.py, settings.py) against its
natural-language specification.

The Python code is shallowly embedded: `Decimal` prices become `ℚ`,
`int` percentages become `ℤ`, `Optional[T]` becomes `Option T`, and a
function that can raise an uncaught exception returns `Except PyErr _`.
Network calls and the wall clock are passed in as explicit function or
value parameters.  URL well-formedness checks of the pydantic `HttpUrl`
type are abstracted (any string is accepted); none of the verified
properties depend on URL syntax.

A pydantic model instance only carries the attributes its class
declares; reading any other attribute raises `AttributeError`.  The
embedding makes this explicit through `Deal.pyGetAttr`, whose name
table is transcribed from the `Deal` class in models.py.  This matters
because deal_manager.py reads the camelCase attributes `dateAdded` and
`discountPercent`, while models.py declares the snake_case fields
`date_added` and `discount_percent`.
-/

namespace Guru

/-- Uncaught Python exceptions that the embedded functions can raise. -/
inductive PyErr where
  | attributeError
  | valueError
deriving DecidableEq, Repr

/-- Python built-in `round` on a real number: round half to even
(banker rounding), as used on the float discount value. -/
def pyRound (q : ℚ) : ℤ :=
  if q - ⌊q⌋ < 1/2 then ⌊q⌋
  else if 1/2 < q - ⌊q⌋ then ⌊q⌋ + 1
  else if ⌊q⌋ % 2 = 0 then ⌊q⌋ else ⌊q⌋ + 1

/-- Python truthiness of an optional decimal: `None` and `0` are falsy. -/
def pyTruthy : Option ℚ → Bool
  | none => false
  | some q => decide (q ≠ 0)

/-- `p` occurs at the front of `l`. -/
def matchesFront : List Char → List Char → Bool
  | [], _ => true
  | _ :: _, [] => false
  | a :: as, b :: bs => a == b && matchesFront as bs

/-- `p` occurs somewhere in the second list. -/
def containsChars (p : List Char) : List Char → Bool
  | [] => matchesFront p []
  | b :: bs => matchesFront p (b :: bs) || containsChars p bs

/-- The Python expression `needle in hay` on strings. -/
def pyStrIn (needle hay : String) : Bool :=
  containsChars needle.toList hay.toList

/-- Python `str.lower`, restricted to the character-wise case fold. -/
def pyToLower (s : String) : String :=
  String.mk (s.toList.map Char.toLower)

/-- The Python check `not v or v.strip() == ""`: the string is empty or
consists of whitespace only. -/
def pyIsBlank (s : String) : Bool :=
  s.toList.all Char.isWhitespace

/-- Python `str.isalnum`. -/
def pyIsAlnum (s : String) : Bool :=
  s ≠ "" && s.toList.all Char.isAlphanum

/-! ## Data model (models.py) -/

/-- models.py `DataSource`. -/
inductive DataSource where
  | PAAPI
  | SCRAPED
  | FALLBACK
  | UNKNOWN
deriving DecidableEq, Repr

/-- models.py `AmazonProduct`: raw product data before transformation
to Deal format (validators not re-applied here; functions below check
what they use). -/
structure AmazonProduct where
  asin : String
  title : String
  current_price : Option ℚ
  list_price : Option ℚ
  discount_percent : Option ℤ
  image_url : Option String
  availability : String
  prime_eligible : Bool
  brand : Option String
  features : List String
  data_source : DataSource
deriving DecidableEq, Repr

/-- models.py `SavingsGuruPost` (the fields the Deal factory reads,
plus identification fields). -/
structure SavingsGuruPost where
  post_id : String
  post_title : String
  post_url : String
  extracted_asins : List String
  category : String
  description : Option String
deriving DecidableEq, Repr

/-- models.py `Deal`: the persisted, user-facing catalog entry.
Field names are exactly the snake_case names the pydantic class
declares. -/
structure Deal where
  id : String
  title : String
  image_url : String
  price : ℚ
  original_price : Option ℚ
  discount_percent : Option ℤ
  category : String
  description : String
  affiliate_url : String
  featured : Bool
  date_added : String
  data_source : DataSource
  asin : String
deriving DecidableEq, Repr

/-- A Python runtime value held by a Deal attribute. -/
inductive PyValue where
  | str (s : String)
  | rat (q : ℚ)
  | int (z : ℤ)
  | bool (b : Bool)
  | pyNone
deriving DecidableEq, Repr

/-- Python attribute lookup `getattr(deal, name)` on a `models.Deal`
instance.  The name table is the field list of the pydantic class in
models.py lines 89-101; pydantic raises `AttributeError` for every
other name (the model declares no extra attributes). -/
def Deal.pyGetAttr (d : Deal) : String → Except PyErr PyValue
  | "id" => .ok (.str d.id)
  | "title" => .ok (.str d.title)
  | "image_url" => .ok (.str d.image_url)
  | "price" => .ok (.rat d.price)
  | "original_price" =>
    .ok (match d.original_price with | some q => .rat q | none => .pyNone)
  | "discount_percent" =>
    .ok (match d.discount_percent with | some z => .int z | none => .pyNone)
  | "category" => .ok (.str d.category)
  | "description" => .ok (.str d.description)
  | "affiliate_url" => .ok (.str d.affiliate_url)
  | "featured" => .ok (.bool d.featured)
  | "date_added" => .ok (.str d.date_added)
  | "data_source" => .ok (.str (match d.data_source with
      | .PAAPI => "PAAPI" | .SCRAPED => "SCRAPED"
      | .FALLBACK => "FALLBACK" | .UNKNOWN => "UNKNOWN"))
  | "asin" => .ok (.str d.asin)
  | _ => .error .attributeError

/-! ## Discount derivation (amazon_api.py lines 197-201 and the
models.py validator `calculate_discount_percent`, lines 39-54; both
run the identical computation
`round(float((list_price - current_price) / list_price * 100))`
guarded by `if current_price and list_price and list_price > current_price`). -/

/-- The shared discount computation.  The guard is Python truthiness
(`None` and `0` prices are falsy) plus `list_price > current_price`. -/
def derive_discount (current_price list_price : Option ℚ) : Option ℤ :=
  match current_price, list_price with
  | some c, some l =>
    if c ≠ 0 ∧ l ≠ 0 ∧ c < l then some (pyRound ((l - c) / l * 100)) else none
  | _, _ => none

/-- models.py validator on `AmazonProduct.discount_percent`: keeps an
explicit value, otherwise derives one from the two prices. -/
def calculate_discount_percent (v : Option ℤ) (current_price list_price : Option ℚ) :
    Option ℤ :=
  match v with
  | some x => some x
  | none => derive_discount current_price list_price

/-- amazon_api.py `_parse_paapi_item` lines 193-195: if no (truthy)
list price was extracted, the current price is used as the list price. -/
def paapi_list_price (current_price list_price : Option ℚ) : Option ℚ :=
  if !pyTruthy list_price && pyTruthy current_price then current_price else list_price

/-! ## Deal factory (models.py `Deal.from_amazon_product`, lines 117-163) -/

/-- models.py `Deal.from_amazon_product`.  `now` stands for the
`datetime.utcnow()` timestamp string.  Control flow is transcribed
line by line:
* lines 129-130: a missing or non-positive current price returns `None`;
* line 133: category defaults to "General" when no post is given;
* line 134: `savingsguru_post.description` is read without a `None`
  guard, so a missing post raises `AttributeError` (the `try` block
  only starts at line 145);
* lines 140-143: featured iff the discount percent is not `None` and ≥ 40;
* lines 145-163: the pydantic `Deal` constructor; a validation failure
  (missing image URL, negative original price, discount outside 0-100)
  is caught and turned into `None`.  `float(list_price) if list_price
  else None` maps a zero list price to `None` by truthiness. -/
def Deal.from_amazon_product (p : AmazonProduct) (partner_tag : String)
    (savingsguru_post : Option SavingsGuruPost) (now : String) :
    Except PyErr (Option Deal) :=
  match p.current_price with
  | none => .ok none
  | some c =>
    if c ≤ 0 then .ok none
    else
      match savingsguru_post with
      | none => .error .attributeError
      | some sp =>
        let category := sp.category
        let description := match sp.description with
          | some ds => if ds = "" then "Great deal on " ++ p.title else ds
          | none => "Great deal on " ++ p.title
        let deal_id := "deal_" ++ p.asin ++ "_" ++ now
        let featured := match p.discount_percent with
          | some v => decide (40 ≤ v)
          | none => false
        match p.image_url with
        | none => .ok none
        | some img =>
          let original_price : Option ℚ := match p.list_price with
            | some l => if l = 0 then none else some l
            | none => none
          let valid :=
            (match original_price with
              | some l => decide (0 ≤ l)
              | none => true)
            && (match p.discount_percent with
              | some v => decide (0 ≤ v ∧ v ≤ 100)
              | none => true)
          if valid then
            .ok (some
              { id := deal_id
                title := p.title
                image_url := img
                price := c
                original_price := original_price
                discount_percent := p.discount_percent
                category := category
                description := description
                affiliate_url := "https://www.amazon.ca/dp/" ++ p.asin ++ "?tag=" ++ partner_tag
                featured := featured
                date_added := now
                data_source := p.data_source
                asin := p.asin })
          else .ok none

/-! ## Structured source client (amazon_api.py `AmazonAPIClient.get_product_info`,
lines 118-164) -/

/-- What one `get_product_info` call did besides producing a result. -/
structure GetProductTrace where
  result : Option AmazonProduct
  /-- whether `_throttle_request` ran (the rate-limit delay was consumed) -/
  throttled : Bool
  /-- whether the remote `get_items` request was issued -/
  networkCalled : Bool
deriving DecidableEq, Repr

/-- amazon_api.py `get_product_info`.  `fetch` stands for the network
request plus `_parse_paapi_item` (all its failure modes are caught and
folded into `none`).  The local validation at lines 128-130 is exactly
`if not asin or len(asin) != 10: return None`, executed before the
throttle and before any network activity. -/
def get_product_info (fetch : String → Option AmazonProduct) (asin : String) :
    GetProductTrace :=
  if asin = "" ∨ asin.length ≠ 10 then
    { result := none, throttled := false, networkCalled := false }
  else
    { result := fetch asin, throttled := true, networkCalled := true }

/-! ## Resolution orchestrator (focused_scraper.py
`FocusedScraper.get_real_product_data`, `_try_paapi`, `_try_web_scraping`,
lines 237-314) -/

/-- The validity condition of `_try_paapi` and `_try_web_scraping`:
`product and product.current_price and product.current_price > 0`
(truthiness of the price plus the strict comparison). -/
def pricedPositive (p : AmazonProduct) : Bool :=
  match p.current_price with
  | some c => decide (c ≠ 0) && decide (0 < c)
  | none => false

/-- focused_scraper.py `_try_paapi`: the client result is kept only if
it carries a positive current price; errors and invalid data give
`none`.  `paapi` stands for `amazon_api.get_product_info` (exceptions
folded into `none`, as the surrounding `try` does). -/
def tryPaapi (paapi : String → Option AmazonProduct) (asin : String) :
    Option AmazonProduct :=
  match paapi asin with
  | some p => if pricedPositive p then some p else none
  | none => none

/-- focused_scraper.py `_try_web_scraping`, same shape over the
fallback scraping client. -/
def tryWebScraping (scraper : String → Option AmazonProduct) (asin : String) :
    Option AmazonProduct :=
  match scraper asin with
  | some p => if pricedPositive p then some p else none
  | none => none

/-- What processing one ASIN in `get_real_product_data` produced and
recorded: the result, whether the fallback client was invoked, and
which of the three counters was incremented. -/
structure AsinResolution where
  result : Option AmazonProduct
  fallbackInvoked : Bool
  paapiSuccess : Bool
  scrapingSuccess : Bool
  skipped : Bool
deriving DecidableEq, Repr

/-- The loop body of `get_real_product_data` (lines 244-274): try
PAAPI; on success record a PAAPI success and `continue` (the fallback
is not reached); otherwise try web scraping; on success record a
scraping success; otherwise record the skip. -/
def processAsin (paapi scraper : String → Option AmazonProduct) (asin : String) :
    AsinResolution :=
  match tryPaapi paapi asin with
  | some p =>
    { result := some p, fallbackInvoked := false,
      paapiSuccess := true, scrapingSuccess := false, skipped := false }
  | none =>
    match tryWebScraping scraper asin with
    | some p =>
      { result := some p, fallbackInvoked := true,
        paapiSuccess := false, scrapingSuccess := true, skipped := false }
    | none =>
      { result := none, fallbackInvoked := true,
        paapiSuccess := false, scrapingSuccess := false, skipped := true }

/-- focused_scraper.py `get_real_product_data`: identifiers are
processed one at a time, each through the fallback chain. -/
def get_real_product_data (paapi scraper : String → Option AmazonProduct)
    (asins : List String) : List (String × AsinResolution) :=
  asins.map fun a => (a, processAsin paapi scraper a)

/-! ## Featured marking (focused_scraper.py `_sort_deals_by_discount`
and `_mark_featured_deals`, lines 351-374) -/

/-- The sort key `d.discount_percent or 0`. -/
def discountKey (d : Deal) : ℤ :=
  match d.discount_percent with
  | some v => v
  | none => 0

/-- Insert into a descending-by-key list, after entries of equal key
(matching the stability of the Python sort). -/
def insertByKeyDesc (x : Deal) : List Deal → List Deal
  | [] => [x]
  | y :: ys =>
    if discountKey y < discountKey x then x :: y :: ys
    else y :: insertByKeyDesc x ys

/-- focused_scraper.py `_sort_deals_by_discount`:
`sorted(deals, key=lambda d: d.discount_percent or 0, reverse=True)`. -/
def sort_deals_by_discount : List Deal → List Deal
  | [] => []
  | d :: rest => insertByKeyDesc d (sort_deals_by_discount rest)

/-- The marking loop of `_mark_featured_deals` (lines 364-372): walk
the sorted list, set `featured := true` on a deal with a truthy
discount ≥ the threshold while fewer than 20 have been marked, and
`featured := false` on every other deal. -/
def markFeaturedLoop (threshold : ℤ) (featured_count : ℕ) : List Deal → List Deal
  | [] => []
  | d :: rest =>
    if (match d.discount_percent with
        | some v => decide (v ≠ 0 ∧ threshold ≤ v)
        | none => false) && decide (featured_count < 20) then
      { d with featured := true } :: markFeaturedLoop threshold (featured_count + 1) rest
    else
      { d with featured := false } :: markFeaturedLoop threshold featured_count rest

/-- focused_scraper.py `_mark_featured_deals` (default threshold 40). -/
def mark_featured_deals (threshold : ℤ) (deals : List Deal) : List Deal :=
  markFeaturedLoop threshold 0 (sort_deals_by_discount deals)

/-! ## Catalog lifecycle manager (deal_manager.py) -/

/-- deal_manager.py `filter_fresh_deals` (lines 60-79).  `parseDate`
stands for `datetime.fromisoformat` (`none` is a raised `ValueError`)
and `cutoff` for `utcnow() - timedelta(hours=deal_freshness_hours)`.
The `try` block reads `deal.dateAdded`; on the embedded `models.Deal`
that attribute lookup raises `AttributeError`, which the
`except Exception` arm catches, keeping the deal ("assume fresh"). -/
def filter_fresh_deals (parseDate : String → Option ℤ) (cutoff : ℤ) :
    List Deal → List Deal
  | [] => []
  | d :: rest =>
    let keep :=
      match d.pyGetAttr "dateAdded" with
      | .error _ => true
      | .ok v =>
        match v with
        | .str s =>
          match parseDate (String.replace s "Z" "+00:00") with
          | some t => decide (cutoff < t)
          | none => true
        | _ => true
    if keep then d :: filter_fresh_deals parseDate cutoff rest
    else filter_fresh_deals parseDate cutoff rest

/-- deal_manager.py `deduplicate_deals` (lines 81-96): drop a deal
whose ASIN is already in `existing_asins`, and add each accepted ASIN
to the set so later duplicates in the same batch are dropped too. -/
def deduplicate_deals (existing_asins : List String) : List Deal → List Deal
  | [] => []
  | d :: rest =>
    if d.asin ∈ existing_asins then deduplicate_deals existing_asins rest
    else d :: deduplicate_deals (d.asin :: existing_asins) rest

/-- deal_manager.py `filter_quality_deals` (lines 98-116).  The loop
body reads `deal.discountPercent` outside any `try`, so on the
embedded `models.Deal` the first iteration raises `AttributeError`.
The kept logic (dead on this model) transcribes
`if deal.discountPercent and deal.discountPercent >= min: keep;
elif not deal.discountPercent: keep; else: drop`. -/
def filter_quality_deals (min_deal_discount : ℤ) :
    List Deal → Except PyErr (List Deal)
  | [] => .ok []
  | d :: rest => do
    let v ← d.pyGetAttr "discountPercent"
    let keep :=
      match v with
      | .int z => if z ≠ 0 ∧ min_deal_discount ≤ z then true else z = 0
      | .pyNone => true
      | _ => true
    let rest1 ← filter_quality_deals min_deal_discount rest
    pure (if keep then d :: rest1 else rest1)

/-- The sort key `deal_priority` inside `manage_deal_count` (lines
127-132): `(not deal.featured, -(deal.discountPercent or 0),
deal.dateAdded)`.  The first component reads the real `featured`
field; the second and third read attributes the `models.Deal` class
does not declare, so building the key raises `AttributeError`. -/
def deal_priority (d : Deal) : Except PyErr (Bool × ℤ × String) := do
  let featuredKey := !d.featured
  let dpVal ← d.pyGetAttr "discountPercent"
  let dp : ℤ := match dpVal with
    | .int z => z
    | _ => 0
  let daVal ← d.pyGetAttr "dateAdded"
  let da := match daVal with
    | .str s => s
    | _ => ""
  pure (featuredKey, -dp, da)

/-- Ascending lexicographic order on the priority key (Python tuple
order; `False` sorts before `True`). -/
def priorityLe (a b : Bool × ℤ × String) : Bool :=
  (!a.1 && b.1)
  || (a.1 == b.1 &&
      (decide (a.2.1 < b.2.1)
       || (a.2.1 == b.2.1 && decide (a.2.2 ≤ b.2.2))))

/-- Stable insertion for the (dead) sorting branch of
`manage_deal_count`. -/
def insertByPriority (x : (Bool × ℤ × String) × Deal) :
    List ((Bool × ℤ × String) × Deal) → List ((Bool × ℤ × String) × Deal)
  | [] => [x]
  | y :: ys =>
    if priorityLe x.1 y.1 && !priorityLe y.1 x.1 then x :: y :: ys
    else y :: insertByPriority x ys

/-- Sort keyed deals ascending by priority key (stable). -/
def sortByPriority : List ((Bool × ℤ × String) × Deal) →
    List ((Bool × ℤ × String) × Deal)
  | [] => []
  | x :: rest => insertByPriority x (sortByPriority rest)

/-- deal_manager.py `manage_deal_count` (lines 118-140): a set within
the target is returned unchanged; otherwise `sorted` evaluates
`deal_priority` on every element (raising on the first) and the first
`target` elements of the sorted list would be kept. -/
def manage_deal_count (target : ℕ) (deals : List Deal) :
    Except PyErr (List Deal) :=
  if deals.length ≤ target then .ok deals
  else do
    let keyed ← deals.mapM fun d => do
      let k ← deal_priority d
      pure (k, d)
    let selected := ((sortByPriority keyed).map fun kd => kd.2).take target
    pure selected

/-! ## Settings (settings.py) -/

/-- The environment variables settings.py reads. -/
structure Env where
  amz_access_key : Option String
  amz_secret_key : Option String
  amz_partner_tag : Option String
  app_env : Option String
deriving DecidableEq, Repr

/-- Why constructing `Settings` failed. -/
inductive ConfigError where
  /-- pydantic: a required field has no value -/
  | missingField
  /-- `validate_amazon_credentials` raised `ValueError` -/
  | invalidCredentials
deriving DecidableEq, Repr

/-- The credential fields of `Settings`. -/
structure SettingsModel where
  amz_access_key : String
  amz_secret_key : String
  amz_partner_tag : String
deriving DecidableEq, Repr

/-- Constructing `Settings(...)`: each credential is required, and the
validator `validate_amazon_credentials` (settings.py lines 93-99)
rejects a value iff `not v or v.strip() == ""`.  Any other non-empty
string — placeholders included — passes. -/
def buildSettings (env : Env) : Except ConfigError SettingsModel :=
  match env.amz_access_key, env.amz_secret_key, env.amz_partner_tag with
  | some a, some s, some p =>
    if pyIsBlank a || pyIsBlank s || pyIsBlank p then .error .invalidCredentials
    else .ok { amz_access_key := a, amz_secret_key := s, amz_partner_tag := p }
  | _, _, _ => .error .missingField

/-- settings.py lines 120-122: `os.environ.setdefault` fills each
credential variable with a dummy value only when it is absent. -/
def setdefaultCreds (env : Env) : Env :=
  { env with
    amz_access_key := some (env.amz_access_key.getD "dummy_access_key")
    amz_secret_key := some (env.amz_secret_key.getD "dummy_secret_key")
    amz_partner_tag := some (env.amz_partner_tag.getD "savingsgurucc-20") }

/-- settings.py line 116:
`"development" in os.environ.get("APP_ENV", "development").lower()`. -/
def isDevelopmentEnv (env : Env) : Bool :=
  pyStrIn "development" (pyToLower (env.app_env.getD "development"))

/-- The module-level `settings` initialization (settings.py lines
111-126): construct `Settings()`; on failure, in a development
environment fill missing credentials with dummy values and retry
(a second failure propagates); outside development re-raise. -/
def initSettings (env : Env) : Except ConfigError SettingsModel :=
  match buildSettings env with
  | .ok s => .ok s
  | .error e =>
    if isDevelopmentEnv env then buildSettings (setdefaultCreds env)
    else .error e

/-! ## Sample data used in concrete statements -/

/-- A concrete catalog entry template. -/
def sampleDeal (theAsin theId dateAdded : String) (dp : Option ℤ) (f : Bool) : Deal :=
  { id := theId, title := "t", image_url := "https://example.com/i.jpg", price := 30,
    original_price := none, discount_percent := dp, category := "General",
    description := "d", affiliate_url := "https://www.amazon.ca/dp/x?tag=t-20",
    featured := f, date_added := dateAdded, data_source := .PAAPI, asin := theAsin }

def dealA : Deal := sampleDeal "A" "dA" "2026-10-11T00:00:00Z" (some 20) false

def dealC1 : Deal := sampleDeal "C" "dC1" "2026-10-11T00:00:00Z" (some 30) false

def dealC2 : Deal := sampleDeal "C" "dC2" "2026-10-11T00:00:00Z" (some 35) false

def staleDeal : Deal := sampleDeal "ASINSTALE1" "ds" "2026-10-10T00:00:00Z" none false

def freshDeal : Deal := sampleDeal "ASINFRESH1" "df" "2026-10-11T23:00:00Z" none false

def lowDiscountDeal : Deal := sampleDeal "ASINLOWDC1" "dl" "2026-10-11T00:00:00Z" (some 5) false

def noDiscountDeal : Deal := sampleDeal "ASINNODC01" "dn" "2026-10-11T00:00:00Z" none false

def comboDeal : Deal := sampleDeal "ASINCOMBO1" "dx" "2026-10-11T00:00:00Z" (some 25) false

def hiDeal : Deal := sampleDeal "ASINHIGH01" "dh" "2026-10-11T00:00:00Z" (some 50) false

/-- A clock model for the freshness scenario: hours relative to a
current time of 2026-10-12T00:00:00, on the strings produced by the
`replace` of a Z suffix. -/
def sampleParseDate (s : String) : Option ℤ :=
  if s = "2026-10-10T00:00:00+00:00" then some (-48)
  else if s = "2026-10-11T23:00:00+00:00" then some (-1)
  else none

def prodNoPrice : AmazonProduct :=
  { asin := "B08N5WRWNW", title := "Test Product", current_price := none,
    list_price := none, discount_percent := none, image_url := none,
    availability := "Unknown", prime_eligible := false, brand := none,
    features := [], data_source := .PAAPI }

def prodOk : AmazonProduct :=
  { prodNoPrice with
    current_price := some 20, list_price := some 40,
    discount_percent := some 50, image_url := some "https://example.com/i.jpg" }

def paapiStub (_ : String) : Option AmazonProduct := some prodOk

def scraperStub (_ : String) : Option AmazonProduct := none

def envEmpty : Env :=
  { amz_access_key := none, amz_secret_key := none, amz_partner_tag := none,
    app_env := none }

def dummySettings : SettingsModel :=
  { amz_access_key := "dummy_access_key", amz_secret_key := "dummy_secret_key",
    amz_partner_tag := "savingsgurucc-20" }

def envPlaceholder : Env :=
  { amz_access_key := some "your-access-key-here",
    amz_secret_key := some "your-secret-here",
    amz_partner_tag := some "placeholder-tag", app_env := some "production" }

def placeholderSettings : SettingsModel :=
  { amz_access_key := "your-access-key-here", amz_secret_key := "your-secret-here",
    amz_partner_tag := "placeholder-tag" }

def envProduction : Env :=
  { amz_access_key := some "real-key", amz_secret_key := some "real-secret",
    amz_partner_tag := some "tag-20", app_env := some "production" }

/-! ## C1: the Deal factory only emits positively priced entries -/

/-- C1: `Deal.from_amazon_product` returns an entry only if the
current price is present and strictly positive (and then the entry
price equals it, hence is positive); when the price is absent or
non-positive it returns `None`. -/
theorem C1_deal_factory_requires_positive_price (p : AmazonProduct) (tag : String)
    (post : Option SavingsGuruPost) (now : String) :
    (∀ d, Deal.from_amazon_product p tag post now = .ok (some d) →
      ∃ c, p.current_price = some c ∧ 0 < c ∧ d.price = c)
    ∧ ((p.current_price = none ∨ ∃ c, p.current_price = some c ∧ c ≤ 0) →
      Deal.from_amazon_product p tag post now = .ok none) := by
  constructor
  · intro d h
    cases hc : p.current_price with
    | none => simp [Deal.from_amazon_product, hc] at h
    | some c =>
      by_cases hcle : c ≤ 0
      · simp [Deal.from_amazon_product, hc, hcle] at h
      · cases hpost : post with
        | none => simp [Deal.from_amazon_product, hc, hcle, hpost] at h
        | some sp =>
          cases himg : p.image_url with
          | none => simp [Deal.from_amazon_product, hc, hcle, hpost, himg] at h
          | some img =>
            simp only [Deal.from_amazon_product, hc, hcle, hpost, himg,
              if_false, if_neg hcle] at h
            split at h
            · simp only [Except.ok.injEq, Option.some.injEq] at h
              subst h
              exact ⟨c, rfl, not_le.mp hcle, rfl⟩
            · simp at h
  · rintro (hc | ⟨c, hc, hcle⟩)
    · simp [Deal.from_amazon_product, hc]
    · simp [Deal.from_amazon_product, hc, hcle]

/-- C1 witness: a product with no current price yields no entry. -/
theorem C1_witness :
    Deal.from_amazon_product prodNoPrice "t-20" none "2026-01-01T00:00:00" = .ok none :=
  (C1_deal_factory_requires_positive_price prodNoPrice "t-20" none
    "2026-01-01T00:00:00").2 (Or.inl rfl)

/-! ## C2: the structured source short-circuits the fallback -/

theorem pricedPositive_iff (p : AmazonProduct) :
    pricedPositive p = true ↔ ∃ c, p.current_price = some c ∧ 0 < c := by
  unfold pricedPositive
  cases hpc : p.current_price with
  | none => simp
  | some c =>
    simp only [Bool.and_eq_true, decide_eq_true_eq, Option.some.injEq]
    constructor
    · rintro ⟨-, h⟩
      exact ⟨c, rfl, h⟩
    · rintro ⟨c2, hc2, h⟩
      subst hc2
      exact ⟨ne_of_gt h, h⟩

theorem tryPaapi_some_red (paapi : String → Option AmazonProduct) (asin : String)
    (p : AmazonProduct) (hp : paapi asin = some p) :
    tryPaapi paapi asin = if pricedPositive p = true then some p else none := by
  unfold tryPaapi
  rw [hp]

theorem tryPaapi_none_red (paapi : String → Option AmazonProduct) (asin : String)
    (hp : paapi asin = none) : tryPaapi paapi asin = none := by
  unfold tryPaapi
  rw [hp]

theorem tryPaapi_eq_some (paapi : String → Option AmazonProduct) (asin : String)
    (p : AmazonProduct) (c : ℚ) (hp : paapi asin = some p)
    (hpc : p.current_price = some c) (hpos : 0 < c) :
    tryPaapi paapi asin = some p := by
  rw [tryPaapi_some_red paapi asin p hp,
    if_pos ((pricedPositive_iff p).mpr ⟨c, hpc, hpos⟩)]

theorem tryPaapi_eq_none_iff (paapi : String → Option AmazonProduct) (asin : String) :
    tryPaapi paapi asin = none ↔
      paapi asin = none ∨ ∃ p, paapi asin = some p ∧
        (p.current_price = none ∨ ∃ c, p.current_price = some c ∧ c ≤ 0) := by
  cases hp : paapi asin with
  | none =>
    rw [tryPaapi_none_red paapi asin hp]
    simp
  | some p =>
    rw [tryPaapi_some_red paapi asin p hp]
    constructor
    · intro hnone
      refine Or.inr ⟨p, rfl, ?_⟩
      by_cases hpp : pricedPositive p = true
      · rw [if_pos hpp] at hnone
        exact absurd hnone (by simp)
      · cases hpc : p.current_price with
        | none => exact Or.inl rfl
        | some c =>
          refine Or.inr ⟨c, rfl, ?_⟩
          by_contra hgt
          push_neg at hgt
          exact hpp ((pricedPositive_iff p).mpr ⟨c, hpc, hgt⟩)
    · rintro (h | ⟨p2, hp2, hrest⟩)
      · exact absurd h (by simp)
      · rw [Option.some.injEq] at hp2
        subst hp2
        have hnp : ¬ pricedPositive p = true := by
          intro hpp
          rcases (pricedPositive_iff p).mp hpp with ⟨c, hc, hpos⟩
          rcases hrest with hn | ⟨c2, hc2, hle⟩
          · rw [hn] at hc
            exact absurd hc (by simp)
          · rw [hc2, Option.some.injEq] at hc
            subst hc
            exact absurd hpos (not_lt.mpr hle)
        rw [if_neg hnp]

/-- C2: in `get_real_product_data`, an identifier whose PAAPI result
carries a positive price never invokes the fallback client and is
recorded as a PAAPI success; the fallback runs only when the PAAPI
attempt yields nothing, i.e. when the client result is absent or has
an absent or non-positive price. -/
theorem C2_paapi_short_circuits_fallback
    (paapi scraper : String → Option AmazonProduct) (asins : List String)
    (asin : String) (step : AsinResolution)
    (hmem : (asin, step) ∈ get_real_product_data paapi scraper asins) :
    (∀ p c, paapi asin = some p → p.current_price = some c → 0 < c →
      step.fallbackInvoked = false ∧ step.paapiSuccess = true ∧ step.result = some p)
    ∧ (step.fallbackInvoked = true → tryPaapi paapi asin = none)
    ∧ (tryPaapi paapi asin = none ↔
        paapi asin = none ∨ ∃ p, paapi asin = some p ∧
          (p.current_price = none ∨ ∃ c, p.current_price = some c ∧ c ≤ 0)) := by
  have hstep : step = processAsin paapi scraper asin := by
    rcases List.mem_map.mp hmem with ⟨a, _, heq⟩
    injection heq with h1 h2
    subst h1
    exact h2.symm
  subst hstep
  refine ⟨?_, ?_, tryPaapi_eq_none_iff paapi asin⟩
  · intro p c hp hpc hpos
    have htry := tryPaapi_eq_some paapi asin p c hp hpc hpos
    simp [processAsin, htry]
  · intro hfb
    cases htry : tryPaapi paapi asin with
    | none => rfl
    | some p => simp [processAsin, htry] at hfb

/-- C2 witness: with a PAAPI stub returning a priced product, the
fallback is never invoked and a PAAPI success is recorded. -/
theorem C2_witness :
    (processAsin paapiStub scraperStub "B08N5WRWNW").fallbackInvoked = false ∧
    (processAsin paapiStub scraperStub "B08N5WRWNW").paapiSuccess = true ∧
    (processAsin paapiStub scraperStub "B08N5WRWNW").result = some prodOk :=
  (C2_paapi_short_circuits_fallback paapiStub scraperStub ["B08N5WRWNW"] "B08N5WRWNW"
    (processAsin paapiStub scraperStub "B08N5WRWNW")
    (List.mem_singleton.mpr rfl)).1 prodOk 20 rfl rfl (by decide)

/-! ## C3: deduplication keeps first occurrences of unseen identifiers -/

theorem deduplicate_deals_not_seen (ds : List Deal) :
    ∀ (seen : List String) (d : Deal),
      d ∈ deduplicate_deals seen ds → d.asin ∉ seen := by
  induction ds with
  | nil => intro seen d h; simp [deduplicate_deals] at h
  | cons e rest ih =>
    intro seen d h
    rw [deduplicate_deals] at h
    by_cases he : e.asin ∈ seen
    · rw [if_pos he] at h
      exact ih seen d h
    · rw [if_neg he] at h
      rcases List.mem_cons.mp h with rfl | hmem
      · exact he
      · intro hc
        exact ih (e.asin :: seen) d hmem (List.mem_cons_of_mem _ hc)

theorem deduplicate_deals_sublist (ds : List Deal) :
    ∀ seen, (deduplicate_deals seen ds).Sublist ds := by
  induction ds with
  | nil => intro seen; simp [deduplicate_deals]
  | cons e rest ih =>
    intro seen
    rw [deduplicate_deals]
    by_cases he : e.asin ∈ seen
    · rw [if_pos he]; exact (ih seen).cons e
    · rw [if_neg he]; exact (ih (e.asin :: seen)).cons₂ e

theorem deduplicate_deals_asins_nodup (ds : List Deal) :
    ∀ seen, ((deduplicate_deals seen ds).map Deal.asin).Nodup := by
  induction ds with
  | nil => intro seen; simp [deduplicate_deals]
  | cons e rest ih =>
    intro seen
    rw [deduplicate_deals]
    by_cases he : e.asin ∈ seen
    · rw [if_pos he]; exact ih seen
    · rw [if_neg he]
      simp only [List.map_cons, List.nodup_cons]
      refine ⟨?_, ih (e.asin :: seen)⟩
      intro hmem
      rcases List.mem_map.mp hmem with ⟨d, hd, hda⟩
      have hnot := deduplicate_deals_not_seen rest (e.asin :: seen) d hd
      exact hnot (by rw [hda]; exact List.mem_cons_self _ _)

theorem deduplicate_deals_covers (ds : List Deal) :
    ∀ (seen : List String) (d : Deal), d ∈ ds → d.asin ∉ seen →
      ∃ e, e ∈ deduplicate_deals seen ds ∧ e.asin = d.asin := by
  induction ds with
  | nil => intro seen d h; simp at h
  | cons f rest ih =>
    intro seen d hd hns
    rw [deduplicate_deals]
    by_cases hf : f.asin ∈ seen
    · rw [if_pos hf]
      rcases List.mem_cons.mp hd with rfl | hmem
      · exact absurd hf hns
      · exact ih seen d hmem hns
    · rw [if_neg hf]
      rcases List.mem_cons.mp hd with rfl | hmem
      · exact ⟨d, List.mem_cons_self _ _, rfl⟩
      · by_cases hfa : d.asin = f.asin
        · exact ⟨f, List.mem_cons_self _ _, hfa.symm⟩
        · have hns2 : d.asin ∉ f.asin :: seen := by
            intro hc
            rcases List.mem_cons.mp hc with h1 | h2
            · exact hfa h1
            · exact hns h2
          rcases ih (f.asin :: seen) d hmem hns2 with ⟨e, he, hea⟩
          exact ⟨e, List.mem_cons_of_mem _ he, hea⟩

/-- C3: `deduplicate_deals` keeps no entry whose identifier is in the
seen set, keeps a sublist of the input with pairwise distinct
identifiers, keeps a representative of every unseen identifier (the
first occurrence), and on existing identifiers A, B with new batch
[A, C, C] accepts exactly the first C entry. -/
theorem C3_deduplication_first_occurrence :
    (∀ (seen : List String) (ds : List Deal),
      (∀ d, d ∈ deduplicate_deals seen ds → d.asin ∉ seen)
      ∧ (deduplicate_deals seen ds).Sublist ds
      ∧ ((deduplicate_deals seen ds).map Deal.asin).Nodup
      ∧ (∀ d, d ∈ ds → d.asin ∉ seen →
          ∃ e, e ∈ deduplicate_deals seen ds ∧ e.asin = d.asin))
    ∧ deduplicate_deals ["A", "B"] [dealA, dealC1, dealC2] = [dealC1] := by
  constructor
  · intro seen ds
    exact ⟨fun d => deduplicate_deals_not_seen ds seen d,
           deduplicate_deals_sublist ds seen,
           deduplicate_deals_asins_nodup ds seen,
           fun d => deduplicate_deals_covers ds seen d⟩
  · decide

/-- C3 witness: the kept C entry indeed has an identifier outside the
existing set. -/
theorem C3_witness : dealC1.asin ∉ ["A", "B"] :=
  (C3_deduplication_first_occurrence.1 ["A", "B"] [dealA, dealC1, dealC2]).1
    dealC1 (by decide)

/-! ## C4: the freshness filter never drops anything -/

/-- C4: as implemented, `filter_fresh_deals` is the identity on every
input, for every date parser and cutoff: the `deal.dateAdded`
attribute read raises `AttributeError` on the `models.Deal` data
(whose field is `date_added`), the handler keeps the deal, and so even
an entry parsed as 48 hours old under a 24 hour window is retained,
contradicting the claimed eviction. -/
theorem C4_freshness_filter_is_identity :
    (∀ (parseDate : String → Option ℤ) (cutoff : ℤ) (deals : List Deal),
      filter_fresh_deals parseDate cutoff deals = deals)
    ∧ filter_fresh_deals sampleParseDate (-24) [staleDeal, freshDeal]
        = [staleDeal, freshDeal] := by
  have hgen : ∀ (parseDate : String → Option ℤ) (cutoff : ℤ) (deals : List Deal),
      filter_fresh_deals parseDate cutoff deals = deals := by
    intro parseDate cutoff deals
    induction deals with
    | nil => rfl
    | cons d rest ih =>
      have hstep : filter_fresh_deals parseDate cutoff (d :: rest)
          = d :: filter_fresh_deals parseDate cutoff rest := rfl
      rw [hstep, ih]
  exact ⟨hgen, hgen sampleParseDate (-24) [staleDeal, freshDeal]⟩

/-! ## C5: the quality filter raises instead of filtering -/

/-- C5: `filter_quality_deals` raises `AttributeError` on every
non-empty input (the loop reads `deal.discountPercent`, which the
`models.Deal` class does not declare), so a discount-5 entry under
minimum 10 is not dropped and a no-discount entry is not kept — the
whole pass fails. -/
theorem C5_quality_filter_raises :
    (∀ (minDiscount : ℤ) (d : Deal) (rest : List Deal),
      filter_quality_deals minDiscount (d :: rest) = .error .attributeError)
    ∧ filter_quality_deals 10 [lowDiscountDeal] = .error .attributeError
    ∧ filter_quality_deals 10 [noDiscountDeal] = .error .attributeError
    ∧ filter_quality_deals 10 ([] : List Deal) = .ok [] :=
  ⟨fun _ _ _ => rfl, rfl, rfl, rfl⟩

/-! ## C6: count management raises instead of trimming -/

/-- C6: `manage_deal_count` returns a within-target set unchanged, but
on any set above the target it raises `AttributeError` (the sort key
reads `deal.discountPercent` and `deal.dateAdded`, absent from
`models.Deal`); in particular 130 entries with target 120 produce an
exception, not a 120-entry selection. -/
theorem C6_count_management_raises :
    (∀ (target : ℕ) (deals : List Deal),
      manage_deal_count target deals =
        if deals.length ≤ target then .ok deals else .error .attributeError)
    ∧ manage_deal_count 120 (List.replicate 130 comboDeal) = .error .attributeError
    ∧ manage_deal_count 120 (List.replicate 120 comboDeal)
        = .ok (List.replicate 120 comboDeal) := by
  have hgen : ∀ (target : ℕ) (deals : List Deal),
      manage_deal_count target deals =
        if deals.length ≤ target then .ok deals else .error .attributeError := by
    intro t deals
    rw [manage_deal_count]
    split
    · rfl
    · rename_i h
      cases deals with
      | nil => simp at h
      | cons d rest => rfl
  refine ⟨hgen, ?_, ?_⟩
  · rw [hgen]
    simp
  · rw [hgen]
    simp

/-! ## C7: discount derivation -/

theorem pyRound_nearest (q : ℚ) : |q - (pyRound q : ℚ)| ≤ 1/2 := by
  have h0 : (⌊q⌋ : ℚ) ≤ q := Int.floor_le q
  have h1 : q < ⌊q⌋ + 1 := Int.lt_floor_add_one q
  rw [pyRound]
  split
  · rename_i h
    rw [abs_le]
    constructor <;> linarith
  · rename_i h
    push_neg at h
    split
    · rename_i h2
      rw [abs_le]
      push_cast
      constructor <;> linarith
    · rename_i h2
      push_neg at h2
      split
      · rw [abs_le]
        constructor <;> linarith
      · rw [abs_le]
        push_cast
        constructor <;> linarith

/-- C7: a derived discount equals the rounding of
`(list - current) / list * 100` (a nearest integer: the rounding error
is at most one half), and it is derived only when both prices are
present and the list price strictly exceeds the current price; on
current 29.99 and list 49.99 the result is 40. -/
theorem C7_discount_derivation_rounds_nearest :
    (∀ cp lp d, derive_discount cp lp = some d →
      ∃ c l, cp = some c ∧ lp = some l ∧ c < l ∧
        d = pyRound ((l - c) / l * 100) ∧
        |((l - c) / l * 100) - (d : ℚ)| ≤ 1/2)
    ∧ (∀ (c l : ℚ), ¬ c < l → derive_discount (some c) (some l) = none)
    ∧ (∀ lp, derive_discount none lp = none)
    ∧ (∀ cp, derive_discount cp none = none)
    ∧ (∀ cp lp, calculate_discount_percent none cp lp = derive_discount cp lp)
    ∧ (∀ (v : ℤ) cp lp, calculate_discount_percent (some v) cp lp = some v)
    ∧ derive_discount (some (2999/100)) (some (4999/100)) = some 40 := by
  refine ⟨?_, ?_, ?_, ?_, fun cp lp => rfl, fun v cp lp => rfl, ?_⟩
  · intro cp lp d h
    cases cp with
    | none => simp [derive_discount] at h
    | some c =>
      cases lp with
      | none => simp [derive_discount] at h
      | some l =>
        replace h : (if c ≠ 0 ∧ l ≠ 0 ∧ c < l
            then some (pyRound ((l - c) / l * 100)) else none) = some d := h
        split at h
        · rename_i hcond
          rw [Option.some.injEq] at h
          subst h
          exact ⟨c, l, rfl, rfl, hcond.2.2, rfl, pyRound_nearest _⟩
        · simp at h
  · intro c l h
    show (if c ≠ 0 ∧ l ≠ 0 ∧ c < l
        then some (pyRound ((l - c) / l * 100)) else none) = none
    rw [if_neg]
    rintro ⟨-, -, hcl⟩
    exact h hcl
  · intro lp
    cases lp <;> rfl
  · intro cp
    cases cp <;> rfl
  · show (if (2999:ℚ)/100 ≠ 0 ∧ (4999:ℚ)/100 ≠ 0 ∧ (2999:ℚ)/100 < 4999/100
        then some (pyRound (((4999:ℚ)/100 - 2999/100) / ((4999:ℚ)/100) * 100))
        else none) = some (40:ℤ)
    rw [if_pos (by norm_num)]
    have h : ((4999:ℚ)/100 - 2999/100) / ((4999:ℚ)/100) * 100 = 200000/4999 := by
      norm_num
    rw [h, pyRound]
    have hf : ⌊(200000/4999 : ℚ)⌋ = 40 := by
      rw [Int.floor_eq_iff]
      constructor <;> norm_num
    rw [hf]
    norm_num

/-- C7 witness: equal prices derive no discount. -/
theorem C7_witness : derive_discount (some 5) (some 5) = none :=
  C7_discount_derivation_rounds_nearest.2.1 5 5 (by decide)

/-! ## C8: local identifier validation in the structured source client -/

/-- C8 counterexample: a 10-character identifier that is not
alphanumeric is not rejected locally — `get_product_info` consumes the
rate-limit delay and issues the network request for it, so the claimed
"length-10 and alphanumeric, else no network call" validation does not
hold as stated. -/
theorem C8_counterexample :
    "ABCD-EF#12".length = 10 ∧ pyIsAlnum "ABCD-EF#12" = false ∧
    (get_product_info (fun _ => none) "ABCD-EF#12").networkCalled = true ∧
    (get_product_info (fun _ => none) "ABCD-EF#12").throttled = true := by
  refine ⟨by decide, by decide, by decide, by decide⟩

/-- C8 (amended): `get_product_info` returns absent immediately —
no throttling, no network call — exactly when the identifier is empty
or its length differs from 10; alphanumericity is not checked locally. -/
theorem C8_local_validation_length_only (fetch : String → Option AmazonProduct)
    (asin : String) (h : asin = "" ∨ asin.length ≠ 10) :
    get_product_info fetch asin =
      { result := none, throttled := false, networkCalled := false } := by
  rw [get_product_info, if_pos h]

/-- C8 witness: a 7-character identifier is rejected locally. -/
theorem C8_witness :
    get_product_info (fun _ => none) "INVALID" =
      { result := none, throttled := false, networkCalled := false } :=
  C8_local_validation_length_only (fun _ => none) "INVALID" (Or.inr (by decide))

/-! ## C9: credential validation at startup -/

/-- C9 counterexample: with all credential variables absent and a
default (development) environment, the module-level initialization
succeeds with dummy placeholder credentials instead of failing hard;
and explicitly placeholder-valued, non-empty credentials pass
`Settings` validation outright. -/
theorem C9_counterexample :
    initSettings envEmpty = .ok dummySettings
    ∧ buildSettings envPlaceholder = .ok placeholderSettings := by
  constructor
  · rfl
  · rfl

/-- C9 (amended): `Settings` construction fails only on missing or
blank (empty/whitespace) credentials and accepts any other value,
placeholders included; outside a development environment the
module-level initialization propagates the construction result
unchanged (a hard failure), while in a development environment with
all credential variables absent it substitutes dummy values and
succeeds. -/
theorem C9_credential_validation_behavior (env : Env) :
    (∀ s, buildSettings env = .ok s →
      env.amz_access_key = some s.amz_access_key ∧
      env.amz_secret_key = some s.amz_secret_key ∧
      env.amz_partner_tag = some s.amz_partner_tag ∧
      pyIsBlank s.amz_access_key = false ∧
      pyIsBlank s.amz_secret_key = false ∧
      pyIsBlank s.amz_partner_tag = false)
    ∧ (isDevelopmentEnv env = false → initSettings env = buildSettings env)
    ∧ (env.amz_access_key = none → env.amz_secret_key = none →
        env.amz_partner_tag = none → isDevelopmentEnv env = true →
        initSettings env = .ok dummySettings) := by
  refine ⟨?_, ?_, ?_⟩
  · intro s h
    cases ha : env.amz_access_key with
    | none => simp [buildSettings, ha] at h
    | some a =>
      cases hs : env.amz_secret_key with
      | none => simp [buildSettings, ha, hs] at h
      | some sk =>
        cases hp : env.amz_partner_tag with
        | none => simp [buildSettings, ha, hs, hp] at h
        | some pt =>
          replace h : (if pyIsBlank a || pyIsBlank sk || pyIsBlank pt
              then (.error .invalidCredentials : Except ConfigError SettingsModel)
              else .ok { amz_access_key := a, amz_secret_key := sk,
                         amz_partner_tag := pt }) = .ok s := by
            rw [← h, buildSettings, ha, hs, hp]
          split at h
          · simp at h
          · rename_i hblank
            rw [Except.ok.injEq] at h
            subst h
            simp only [Bool.or_eq_true, not_or, Bool.not_eq_true] at hblank
            exact ⟨rfl, rfl, rfl, hblank.1.1, hblank.1.2, hblank.2⟩
  · intro hdev
    rw [initSettings]
    cases hb : buildSettings env with
    | ok s => rfl
    | error e => simp [hdev]
  · intro h1 h2 h3 hdev
    have hb : buildSettings env = .error .missingField := by
      rw [buildSettings, h1]
    have hsd : setdefaultCreds env =
        { amz_access_key := some "dummy_access_key",
          amz_secret_key := some "dummy_secret_key",
          amz_partner_tag := some "savingsgurucc-20",
          app_env := env.app_env } := by
      rw [setdefaultCreds, h1, h2, h3]
      rfl
    rw [initSettings, hb]
    simp only [hdev, if_true]
    rw [hsd]
    rfl

/-- C9 witness: outside development, initialization is exactly
construction (so a failure there is fatal). -/
theorem C9_witness : initSettings envProduction = buildSettings envProduction :=
  (C9_credential_validation_behavior envProduction).2.1 (by decide)

/-! ## C10: featured marking invariants -/

theorem markFeaturedLoop_featured_discount (threshold : ℤ) :
    ∀ (l : List Deal) (count : ℕ) (d : Deal),
      d ∈ markFeaturedLoop threshold count l → d.featured = true →
      ∃ v, d.discount_percent = some v ∧ v ≠ 0 ∧ threshold ≤ v := by
  intro l
  induction l with
  | nil => intro count d h; simp [markFeaturedLoop] at h
  | cons e rest ih =>
    intro count d h hf
    rw [markFeaturedLoop] at h
    split at h
    · rename_i hcond
      rcases List.mem_cons.mp h with rfl | hmem
      · rw [Bool.and_eq_true] at hcond
        cases hdp : e.discount_percent with
        | none => rw [hdp] at hcond; simp at hcond
        | some v =>
          rw [hdp] at hcond
          have hv := of_decide_eq_true hcond.1
          exact ⟨v, rfl, hv.1, hv.2⟩
      · exact ih (count + 1) d hmem hf
    · rcases List.mem_cons.mp h with rfl | hmem
      · simp at hf
      · exact ih count d hmem hf

theorem markFeaturedLoop_count_le (threshold : ℤ) :
    ∀ (l : List Deal) (count : ℕ),
      (markFeaturedLoop threshold count l).countP (fun d => d.featured) ≤ 20 - count := by
  intro l
  induction l with
  | nil => intro count; simp [markFeaturedLoop]
  | cons e rest ih =>
    intro count
    rw [markFeaturedLoop]
    split
    · rename_i hcond
      rw [Bool.and_eq_true] at hcond
      have hc20 : count < 20 := of_decide_eq_true hcond.2
      have h1 := ih (count + 1)
      simp only [List.countP_cons]
      simp
      omega
    · have h1 := ih count
      simp only [List.countP_cons]
      simp
      omega

theorem markFeaturedLoop_low_unfeatured (threshold : ℤ) :
    ∀ (l : List Deal) (count : ℕ) (d : Deal),
      d ∈ markFeaturedLoop threshold count l →
      (∀ v, d.discount_percent = some v → v < threshold) →
      d.featured = false := by
  intro l
  induction l with
  | nil => intro count d h; simp [markFeaturedLoop] at h
  | cons e rest ih =>
    intro count d h hlow
    rw [markFeaturedLoop] at h
    split at h
    · rename_i hcond
      rcases List.mem_cons.mp h with rfl | hmem
      · rw [Bool.and_eq_true] at hcond
        cases hdp : e.discount_percent with
        | none => rw [hdp] at hcond; simp at hcond
        | some v =>
          rw [hdp] at hcond
          have hv := of_decide_eq_true hcond.1
          have := hlow v hdp
          exact absurd hv.2 (not_le.mpr this)
      · exact ih (count + 1) d hmem hlow
    · rcases List.mem_cons.mp h with rfl | hmem
      · rfl
      · exact ih count d hmem hlow

/-- C10: after the marking pass (threshold 40), every featured entry
has a present discount of at least 40, at most 20 entries are
featured, and every entry whose discount is below 40 or absent is
unfeatured. -/
theorem C10_featured_invariants (deals : List Deal) :
    (∀ d, d ∈ mark_featured_deals 40 deals → d.featured = true →
      ∃ v, d.discount_percent = some v ∧ 40 ≤ v)
    ∧ (mark_featured_deals 40 deals).countP (fun d => d.featured) ≤ 20
    ∧ (∀ d, d ∈ mark_featured_deals 40 deals →
        (∀ v, d.discount_percent = some v → v < 40) → d.featured = false) := by
  refine ⟨?_, ?_, ?_⟩
  · intro d h hf
    rw [mark_featured_deals] at h
    rcases markFeaturedLoop_featured_discount 40 _ 0 d h hf with ⟨v, hv, -, hle⟩
    exact ⟨v, hv, hle⟩
  · rw [mark_featured_deals]
    simpa using markFeaturedLoop_count_le 40 (sort_deals_by_discount deals) 0
  · intro d h hlow
    rw [mark_featured_deals] at h
    exact markFeaturedLoop_low_unfeatured 40 _ 0 d h hlow

/-- C10 witness: a 50-percent-discount entry comes out featured with
its discount at least 40. -/
theorem C10_witness :
    ∃ v, ({ hiDeal with featured := true } : Deal).discount_percent = some v ∧ 40 ≤ v :=
  (C10_featured_invariants [hiDeal]).1 { hiDeal with featured := true } (by decide) rfl

end Guru
